import Mathlib

/-!
Verification development for the ClawFix diagnostic service.

The definitions below are a shallow embedding of the JavaScript sources
`src/known-issues.js` (issue catalog and detector) and
`src/routes/diagnose.js` (diagnose route, AI augmentor adapter,
fix-script composer, in-memory result store).

JSON values are modelled by the inductive `JsonVal` (numbers as `Int`);
JavaScript property access, truthiness, string coercion and the concrete
regular-expression tests used by the catalog are modelled explicitly.
A JavaScript exception inside a detection predicate is modelled by
`Except.error`.
-/

namespace ClawFix

/-- A JSON-shaped JavaScript value (request bodies, diagnostic payloads). -/
inductive JsonVal where
  | null
  | bool (b : Bool)
  | num (n : Int)
  | str (s : String)
  | arr (xs : List JsonVal)
  | obj (fields : List (String × JsonVal))

/-- JavaScript property access `v[k]`: only objects yield fields, anything
else yields `undefined` (`none`). -/
def getField : JsonVal → String → Option JsonVal
  | .obj fs, k => (fs.find? (fun p => p.1 == k)).map (fun p => p.2)
  | _, _ => none

/-- Optional chaining `o?.[k]`. -/
def digOpt (o : Option JsonVal) (k : String) : Option JsonVal :=
  o.bind (fun v => getField v k)

/-- A chain of optional property accesses starting at a value. -/
def getPath (v : JsonVal) (ks : List String) : Option JsonVal :=
  ks.foldl digOpt (some v)

/-- JavaScript truthiness of a value. -/
def truthyV : JsonVal → Bool
  | .null => false
  | .bool b => b
  | .num n => n != 0
  | .str s => s != ""
  | .arr _ => true
  | .obj _ => true

/-- JavaScript truthiness of a possibly-`undefined` value. -/
def truthyO : Option JsonVal → Bool
  | some v => truthyV v
  | none => false

/-- Strict equality with `true` (`x === true`). -/
def isTrueV : Option JsonVal → Bool
  | some (.bool true) => true
  | _ => false

/-- Strict equality with the number `0` (`x === 0`). -/
def isZeroNum : Option JsonVal → Bool
  | some (.num n) => n == 0
  | _ => false

/-- The idiom `x || ''`: keep a truthy value, otherwise the empty string. -/
def orEmpty : Option JsonVal → JsonVal
  | some v => if truthyV v then v else .str ""
  | none => .str ""

/-- The idiom `a || b` on strings (empty string is falsy). -/
def jsOrString (a b : String) : String :=
  if a == "" then b else a

mutual
/-- JavaScript `String(v)` coercion for the value shapes of this model. -/
def jsToString : JsonVal → String
  | .null => "null"
  | .bool b => if b then "true" else "false"
  | .num n => toString n
  | .str s => s
  | .obj _ => "[object Object]"
  | .arr xs => String.intercalate (",") (jsToStringArr xs)

/-- Array elements under `Array.prototype.toString`: `null` renders empty. -/
def jsToStringArr : List JsonVal → List String
  | [] => []
  | .null :: vs => "" :: jsToStringArr vs
  | v :: vs => jsToString v :: jsToStringArr vs
end

/-- Does JavaScript `+` coerce this operand to a string? -/
def jsIsStringish : JsonVal → Bool
  | .str _ => true
  | .arr _ => true
  | .obj _ => true
  | _ => false

/-- Numeric coercion for the non-string operands of `+`. -/
def jsToNumber : JsonVal → Int
  | .null => 0
  | .bool b => if b then 1 else 0
  | .num n => n
  | _ => 0

/-- JavaScript binary `+` on the values of this model. -/
def jsAdd (a b : JsonVal) : JsonVal :=
  if jsIsStringish a || jsIsStringish b then .str (jsToString a ++ jsToString b)
  else .num (jsToNumber a + jsToNumber b)

/-- JavaScript `\s` for the ASCII range (plus NBSP). -/
def isSpaceJS (c : Char) : Bool :=
  c == ' ' || c == '\t' || c == '\n' || c == '\r' || c == '\x0b' || c == '\x0c' || c == ' '

/-- Line terminators that `.` does not cross in a JavaScript regex. -/
def isLineTermJS (c : Char) : Bool :=
  c == '\n' || c == '\r' || c == ' ' || c == ' '

/-- Does `pat` occur as a contiguous sublist of `l`? -/
def containsFrom (pat : List Char) : List Char → Bool
  | [] => pat.isEmpty
  | c :: rest => pat.isPrefixOf (c :: rest) || containsFrom pat rest

/-- `String.prototype.includes` / a regex test for a plain literal. -/
def strContains (s pat : String) : Bool :=
  containsFrom pat.data s.data

/-- Case-insensitive containment; `patLower` is given lowercased. -/
def containsCI (s patLower : String) : Bool :=
  containsFrom patLower.data (s.data.map Char.toLower)

/-- The suffix just after the first occurrence of `pat`, if any. -/
def afterFirstL (pat : List Char) : List Char → Option (List Char)
  | [] => if pat.isEmpty then some [] else none
  | c :: rest =>
      if pat.isPrefixOf (c :: rest) then some ((c :: rest).drop pat.length)
      else afterFirstL pat rest

/-- Test for a regex `p₁.*p₂.*…` of literals joined by `.*` within one line:
each literal occurs, in order, left to right. -/
def seqTest : List Char → List (List Char) → Bool
  | _, [] => true
  | l, p :: ps =>
      match afterFirstL p l with
      | some r => seqTest r ps
      | none => false

/-- Split at JavaScript line terminators (which `.` cannot match). -/
def splitLinesL : List Char → List (List Char)
  | [] => [[]]
  | c :: rest =>
      if isLineTermJS c then [] :: splitLinesL rest
      else
        match splitLinesL rest with
        | [] => [[c]]
        | l :: ls => (c :: l) :: ls

/-- Case-insensitive test of an alternation of `.*`-joined literal sequences
(the shape of every multi-part regex in the catalog). Patterns are given
lowercased. -/
def regexAlts (s : String) (alts : List (List String)) : Bool :=
  (splitLinesL (s.data.map Char.toLower)).any
    (fun l => alts.any (fun pats => seqTest l (pats.map String.data)))

/-- Case-insensitive test of an alternation of plain literals
(no `.` in the pattern, so lines are irrelevant). -/
def anyLiteralCI (s : String) (patsLower : List String) : Bool :=
  patsLower.any (fun p => containsCI s p)

/-- The regex `^\d+m$`. -/
def matchDigitsM (s : String) : Bool :=
  s.data.getLast? == some 'm' && !s.data.dropLast.isEmpty && s.data.dropLast.all Char.isDigit

/-- Decimal digit accumulation for `parseInt`. -/
def digitsVal : List Char → Nat → Nat
  | [], acc => acc
  | c :: r, acc => digitsVal r (acc * 10 + (c.toNat - 48))

/-- JavaScript `parseInt` in base 10: skip leading whitespace, optional
sign, then a maximal run of decimal digits; `none` models `NaN`. -/
def parseIntJS (s : String) : Option Int :=
  let l := s.data.dropWhile isSpaceJS
  let signed : Bool × List Char :=
    match l with
    | '-' :: r => (true, r)
    | '+' :: r => (false, r)
    | _ => (false, l)
  let ds := signed.2.takeWhile Char.isDigit
  if ds.isEmpty then none
  else some (if signed.1 then -(Int.ofNat (digitsVal ds 0)) else Int.ofNat (digitsVal ds 0))

/-- `parseInt(s) < bound` (false when `parseInt` gives `NaN`). -/
def parseIntLt (s : String) (bound : Int) : Bool :=
  match parseIntJS s with
  | some n => n < bound
  | none => false

end ClawFix

namespace ClawFix

/-- A catalog entry of `KNOWN_ISSUES`: a detection predicate paired with a
fix fragment. A thrown JavaScript exception inside `detect` is modelled by
`Except.error ()`. -/
structure IssueDef where
  id : String
  severity : String
  title : String
  description : String
  detect : JsonVal → Except Unit Bool
  fix : String

/-- A matched issue as projected by `detectIssues`. -/
structure DetectionResult where
  id : String
  severity : String
  title : String
  description : String
  fix : String
deriving DecidableEq

/-- The `mem0-graph-free` catalog entry. -/
def mem0GraphFree : IssueDef :=
  { id := "mem0-graph-free"
    severity := "critical"
    title := "Mem0 enableGraph on Free plan"
    description := "Mem0 plugin has enableGraph: true but this requires the Pro plan ($99/mo). Every autoCapture and autoRecall call silently fails, meaning zero memories are stored."
    detect := fun diag => .ok (isTrueV (getPath diag [("config"), ("plugins"), ("entries"), ("openclaw-mem0"), ("config"), ("enableGraph")]))
    fix := "# Fix: Disable Mem0 graph (requires Pro plan)\njq \x27.plugins.entries[\"openclaw-mem0\"].config.enableGraph = false\x27 \\\n  ~/.openclaw/openclaw.json > /tmp/oc-fix.json && \\\n  mv /tmp/oc-fix.json ~/.openclaw/openclaw.json\necho \"✅ Mem0 graph disabled — autoCapture will now work on Free plan\"" }

/-- The `gateway-not-running` catalog entry. -/
def gatewayNotRunning : IssueDef :=
  { id := "gateway-not-running"
    severity := "critical"
    title := "Gateway is not running"
    description := "The OpenClaw gateway process is not running. This could be due to a config error, port conflict, or crash."
    detect := fun diag =>
      .ok (anyLiteralCI (jsToString (orEmpty (getPath diag [("openclaw"), ("gatewayStatus")]))) [("not running"), ("error"), ("failed"), ("stopped")]
           && !(truthyO (getPath diag [("openclaw"), ("gatewayPid")])))
    fix := "# Fix: Restart the gateway\nopenclaw gateway restart\n# If that fails, check logs:\n# cat ~/.openclaw/logs/gateway.err.log | tail -20" }

/-- The `port-conflict` catalog entry. -/
def portConflict : IssueDef :=
  { id := "port-conflict"
    severity := "critical"
    title := "Port conflict (EADDRINUSE)"
    description := "The gateway port is already in use by another process. This prevents OpenClaw from starting."
    detect := fun diag =>
      .ok (containsCI (jsToString (orEmpty (getPath diag [("logs"), ("errors")]))) ("eaddrinuse"))
    fix := "# Fix: Kill the process using the gateway port and restart\nPORT=$(jq -r \x27.gateway.port // 18789\x27 ~/.openclaw/openclaw.json)\nPID=$(lsof -ti :$PORT 2>/dev/null)\nif [ -n \"$PID\" ]; then\n  echo \"Killing process $PID on port $PORT\"\n  kill $PID\n  sleep 1\nfi\nopenclaw gateway restart\necho \"✅ Port conflict resolved\"" }

/-- The `browser-port-binding` catalog entry. -/
def browserPortBinding : IssueDef :=
  { id := "browser-port-binding"
    severity := "high"
    title := "Browser control port not binding (18791)"
    description := "The browser control HTTP server on port 18791 won\x27t start. This prevents browser automation from working."
    detect := fun diag =>
      .ok (regexAlts (jsToString (orEmpty (getPath diag [("logs"), ("errors")])))
            [[("18791"), ("eaddrinuse")], [("browser"), ("control"), ("fail")], [("browser"), ("service"), ("start")]])
    fix := "# Fix: Kill stale browser processes and restart\npkill -f \"chrome.*--remote-debugging-port\" 2>/dev/null\nPID=$(lsof -ti :18791 2>/dev/null)\n[ -n \"$PID\" ] && kill $PID\nPID=$(lsof -ti :18800 2>/dev/null)\n[ -n \"$PID\" ] && kill $PID\nsleep 1\nopenclaw gateway restart\necho \"✅ Browser ports cleared\"" }

/-- The `no-hybrid-search` catalog entry. -/
def noHybridSearch : IssueDef :=
  { id := "no-hybrid-search"
    severity := "medium"
    title := "Hybrid search not enabled"
    description := "Your memory search is using basic vector search only. Enabling hybrid search (vector + BM25) significantly improves recall, especially for exact matches like wallet addresses, error codes, and names."
    detect := fun diag =>
      .ok (!(truthyO (getPath diag [("config"), ("agents"), ("defaults"), ("memorySearch"), ("query"), ("hybrid"), ("enabled")])))
    fix := "# Fix: Enable hybrid search with recommended weights\njq \x27.agents.defaults.memorySearch.query.hybrid = \x7b\n  \"enabled\": true,\n  \"vectorWeight\": 0.6,\n  \"textWeight\": 0.4,\n  \"temporalDecay\": \x7b\"enabled\": true, \"halfLifeDays\": 14\x7d\n\x7d\x27 ~/.openclaw/openclaw.json > /tmp/oc-fix.json && \\\n  mv /tmp/oc-fix.json ~/.openclaw/openclaw.json\necho \"✅ Hybrid search enabled (vector 0.6 + BM25 0.4 + temporal decay)\"" }

/-- The `no-context-pruning` catalog entry. -/
def noContextPruning : IssueDef :=
  { id := "no-context-pruning"
    severity := "medium"
    title := "No context pruning configured"
    description := "Without context pruning, old messages pile up and waste your context window. This makes conversations more expensive and can cause compactions to happen more often."
    detect := fun diag =>
      .ok (!(truthyO (getPath diag [("config"), ("agents"), ("defaults"), ("contextPruning")])))
    fix := "# Fix: Enable context pruning (cache-ttl mode, 6 hour TTL)\njq \x27.agents.defaults.contextPruning = \x7b\n  \"mode\": \"cache-ttl\",\n  \"ttl\": \"6h\",\n  \"keepLastAssistants\": 3\n\x7d\x27 ~/.openclaw/openclaw.json > /tmp/oc-fix.json && \\\n  mv /tmp/oc-fix.json ~/.openclaw/openclaw.json\necho \"✅ Context pruning enabled (6h TTL, keeps last 3 assistant messages)\"" }

/-- The `no-memory-flush` catalog entry. -/
def noMemoryFlush : IssueDef :=
  { id := "no-memory-flush"
    severity := "high"
    title := "Memory flush not enabled"
    description := "When your context window fills up and compaction happens, important information will be lost. Memory flush automatically saves a summary before compacting."
    detect := fun diag =>
      .ok (!(truthyO (getPath diag [("config"), ("agents"), ("defaults"), ("compaction"), ("memoryFlush"), ("enabled")])))
    fix := "# Fix: Enable memory flush with smart prompt\njq \x27.agents.defaults.compaction = \x7b\n  \"mode\": \"safeguard\",\n  \"reserveTokensFloor\": 32000,\n  \"memoryFlush\": \x7b\n    \"enabled\": true,\n    \"softThresholdTokens\": 40000,\n    \"prompt\": \"Distill this session to memory/YYYY-MM-DD.md (use today\x27\"\x27\"\x27s date, APPEND only). Focus on: decisions made, state changes, lessons learned, blockers hit, tasks completed/started. Include specific details (IDs, URLs, amounts, error messages). If nothing worth saving, reply NO_REPLY.\"\n  \x7d\n\x7d\x27 ~/.openclaw/openclaw.json > /tmp/oc-fix.json && \\\n  mv /tmp/oc-fix.json ~/.openclaw/openclaw.json\necho \"✅ Memory flush enabled — context compaction will save summaries\"" }

/-- The `no-soul` catalog entry. -/
def noSoul : IssueDef :=
  { id := "no-soul"
    severity := "low"
    title := "No SOUL.md found"
    description := "SOUL.md defines your agent\x27s personality and behavior. Without it, your agent is generic and lacks character."
    detect := fun diag => .ok (!(truthyO (getPath diag [("workspace"), ("hasSoul")])))
    fix := "# Fix: Create a basic SOUL.md\nWORKSPACE=$(jq -r \x27.agents.defaults.workspace // \"~/.openclaw/workspace\"\x27 ~/.openclaw/openclaw.json)\ncat > \"$WORKSPACE/SOUL.md\" << \x27SOUL\x27\n# SOUL.md — Who You Are\n\nYou are a helpful AI assistant. Be concise, direct, and genuinely useful.\nHave opinions. Be resourceful. Earn trust through competence.\n\nCustomize this file to give your agent personality!\nSOUL\necho \"✅ Created basic SOUL.md at $WORKSPACE/SOUL.md\"" }

/-- The `no-memory-files` catalog entry. -/
def noMemoryFiles : IssueDef :=
  { id := "no-memory-files"
    severity := "low"
    title := "No memory files found"
    description := "Your agent has no memory directory or daily note files. This means it can\x27t persist knowledge across sessions."
    detect := fun diag => .ok (isZeroNum (getPath diag [("workspace"), ("memoryFiles")]))
    fix := "# Fix: Create memory directory\nWORKSPACE=$(jq -r \x27.agents.defaults.workspace // \"~/.openclaw/workspace\"\x27 ~/.openclaw/openclaw.json)\nmkdir -p \"$WORKSPACE/memory\"\necho \"# Memory\" > \"$WORKSPACE/MEMORY.md\"\necho \"✅ Created memory directory at $WORKSPACE/memory/\"" }

/-- The `ggml-metal-crash` catalog entry. -/
def ggmlMetalCrash : IssueDef :=
  { id := "ggml-metal-crash"
    severity := "high"
    title := "GGML Metal GPU crash (macOS)"
    description := "QMD or other GGML-based tools crash with GGML_ASSERT on macOS with Apple Silicon. This is a known Metal GPU bug. Fix: use CPU mode."
    detect := fun diag =>
      .ok (regexAlts (jsToString (jsAdd (orEmpty (getPath diag [("logs"), ("errors")])) (orEmpty (getPath diag [("logs"), ("stderr")]))))
            [[("ggml_assert"), ("ggml-metal")], [("ggml-metal"), ("assert")]])
    fix := "# Fix: Disable Metal GPU for GGML (use CPU instead)\n# Add to ~/.zshrc or ~/.bashrc\necho \x27export GGML_NO_METAL=1\x27 >> ~/.zshrc\n# Also add to OpenClaw env\njq \x27.env.GGML_NO_METAL = \"1\"\x27 ~/.openclaw/openclaw.json > /tmp/oc-fix.json && \\\n  mv /tmp/oc-fix.json ~/.openclaw/openclaw.json\necho \"✅ GGML Metal disabled — CPU mode active (fixes QMD crashes)\"" }

/-- The `orphan-tool-calls` catalog entry. -/
def orphanToolCalls : IssueDef :=
  { id := "orphan-tool-calls"
    severity := "medium"
    title := "Orphan tool_calls in session history"
    description := "Session JSONL files contain tool_call entries without matching tool_result entries. This causes \"tool_call_id is not found\" errors. Known OpenClaw bug #11187."
    detect := fun diag =>
      .ok (regexAlts (jsToString (orEmpty (getPath diag [("logs"), ("errors")])))
            [[("tool_call_id"), ("not found")], [("orphan"), ("tool")]])
    fix := "# Fix: This is a known OpenClaw bug (#11187).\n# Workaround: clear the affected session file\n# Find session files with orphan tool calls:\nfind ~/.openclaw/sessions -name \"*.jsonl\" -exec grep -l \"tool_call\" \x7b\x7d \\; 2>/dev/null | while read f; do\n  echo \"Checking: $f\"\ndone\necho \"⚠️  If issues persist, try: openclaw gateway restart\"\necho \"This bug is tracked at: https://github.com/openclaw/openclaw/issues/11187\"" }

/-- The `high-token-usage` catalog entry. -/
def highTokenUsage : IssueDef :=
  { id := "high-token-usage"
    severity := "medium"
    title := "High token consumption detected"
    description := "Your configuration may be causing excessive token usage. Common causes: no context pruning, large workspace files being loaded every turn, or aggressive heartbeat intervals."
    detect := fun diag =>
      let heartbeatEvery := getPath diag [("config"), ("agents"), ("defaults"), ("heartbeat"), ("every")]
      let pruning := getPath diag [("config"), ("agents"), ("defaults"), ("contextPruning")]
      let everyStr :=
        match heartbeatEvery with
        | some v => jsToString v
        | none => ""
      .ok (!(truthyO pruning) && truthyO heartbeatEvery && matchDigitsM everyStr && parseIntLt everyStr 30)
    fix := "# Fix: Reduce token usage\n# 1. Enable context pruning (see fix above)\n# 2. Increase heartbeat interval to 30+ minutes\njq \x27.agents.defaults.heartbeat.every = \"30m\"\x27 ~/.openclaw/openclaw.json > /tmp/oc-fix.json && \\\n  mv /tmp/oc-fix.json ~/.openclaw/openclaw.json\n# 3. Use a cheaper model for heartbeats\njq \x27.agents.defaults.heartbeat.model = \"anthropic/claude-sonnet-4-6\"\x27 ~/.openclaw/openclaw.json > /tmp/oc-fix.json && \\\n  mv /tmp/oc-fix.json ~/.openclaw/openclaw.json\necho \"✅ Token usage optimized (30min heartbeat + Sonnet model)\"" }

/-- The ordered issue catalog `KNOWN_ISSUES`. -/
def KNOWN_ISSUES : List IssueDef :=
  [mem0GraphFree, gatewayNotRunning, portConflict, browserPortBinding,
   noHybridSearch, noContextPruning, noMemoryFlush, noSoul, noMemoryFiles,
   ggmlMetalCrash, orphanToolCalls, highTokenUsage]

/-- The detector\x27s per-rule try/catch: a thrown predicate counts as
"not detected". -/
def safeDetect (issue : IssueDef) (diagnostic : JsonVal) : Bool :=
  match issue.detect diagnostic with
  | .ok b => b
  | .error _ => false

/-- The projection applied to each matched catalog entry. -/
def toResult (issue : IssueDef) : DetectionResult :=
  { id := issue.id, severity := issue.severity, title := issue.title,
    description := issue.description, fix := issue.fix }

/-- `detectIssues` generalized over the catalog: filter in catalog order,
each predicate individually guarded, then project. -/
def detectIssuesIn (catalog : List IssueDef) (diagnostic : JsonVal) : List DetectionResult :=
  (catalog.filter (fun issue => safeDetect issue diagnostic)).map toResult

/-- `detectIssues` from `src/known-issues.js`. -/
def detectIssues (diagnostic : JsonVal) : List DetectionResult :=
  detectIssuesIn KNOWN_ISSUES diagnostic

end ClawFix

namespace ClawFix

/-- JavaScript `String.prototype.trim`. -/
def trimJS (l : List Char) : List Char :=
  ((l.dropWhile isSpaceJS).reverse.dropWhile isSpaceJS).reverse

/-- JavaScript `String.prototype.slice(0, n)`. -/
def sliceJS (s : String) (n : Nat) : String :=
  ⟨s.data.take n⟩

/-- Case-insensitive literal match at the front; `kw` is given lowercased.
Returns the remainder on success. -/
def stripKeywordCI : List Char → List Char → Option (List Char)
  | [], l => some l
  | _, [] => none
  | k :: ks, c :: cs => if c.toLower == k then stripKeywordCI ks cs else none

/-- Index of the last occurrence of a character. -/
def lastIdxOf (c : Char) : List Char → Option Nat
  | [] => none
  | x :: r =>
      match lastIdxOf c r with
      | some i => some (i + 1)
      | none => if x == c then some 0 else none

/-- The lazy capture `([\s\S]*?)` bounded by the lookahead `(?=\n#+|$)`:
take characters up to (excluding) the first `"\n#"`, or the whole rest. -/
def captureToLookahead : List Char → List Char
  | [] => []
  | '\n' :: '#' :: _ => []
  | c :: r => c :: captureToLookahead r

/-- One attempt of the `extractSection` regex at a line start: the optional
`#+\s*` prefix, the keyword (case-insensitive), a `[:\s]*` run that must end
at a newline (greedy, so at the last newline of the run), then the capture. -/
def sectionAttempt (kw : List Char) (cs : List Char) : Option (List Char) :=
  let cs1 :=
    match cs with
    | '#' :: _ => (cs.dropWhile (fun c => c == '#')).dropWhile isSpaceJS
    | _ => cs
  match stripKeywordCI kw cs1 with
  | none => none
  | some rest =>
      let runLen := (rest.takeWhile (fun c => c == ':' || isSpaceJS c)).length
      match lastIdxOf '\n' (rest.take runLen) with
      | none => none
      | some m => some (captureToLookahead (rest.drop (m + 1)))

/-- The suffixes of `l` that start just after a newline, left to right. -/
def tailsAfterNewline : List Char → List (List Char)
  | [] => []
  | '\n' :: r => r :: tailsAfterNewline r
  | _ :: r => tailsAfterNewline r

/-- `extractSection` from `src/routes/diagnose.js`: first match of
`(?:^|\n)(?:#+\s*)?(?:keyword)[:\s]*\n([\s\S]*?)(?=\n#+|$)` (flag `i`),
with the captured group trimmed; the empty string when there is no match. -/
def extractSection (text keyword : String) : String :=
  let kw := keyword.data.map Char.toLower
  match (text.data :: tailsAfterNewline text.data).findSome? (sectionAttempt kw) with
  | some cap => ⟨trimJS cap⟩
  | none => ""

/-- The output contract of `analyzeWithAI` (the `raw` echo of the response,
present only on the success path and consumed nowhere, is omitted). -/
structure AIAnalysis where
  summary : String
  insights : String
  additionalIssues : List String
  additionalFixes : String
deriving DecidableEq

/-- `analyzeWithAI` from `src/routes/diagnose.js`. The outcome of the
provider call (`anthropic.messages.create` plus reading
`message.content[0].text`) is passed in as `aiCall`: `.ok` carries the
response text, `.error` carries the thrown error message (provider error,
timeout, or malformed response). -/
def analyzeWithAI (aiCall : Except String String) (knownIssues : List DetectionResult) : AIAnalysis :=
  match aiCall with
  | .ok response =>
      { summary := jsOrString (extractSection response ("summary")) (sliceJS response 500)
        insights := jsOrString (extractSection response ("optimization")) ("")
        additionalIssues := []
        additionalFixes := jsOrString (extractSection response ("fix")) ("") }
  | .error errMessage =>
      { summary := ("Pattern matching found ") ++ toString knownIssues.length ++ (" issue(s). AI analysis unavailable (") ++ errMessage ++ (").")
        insights := ""
        additionalIssues := []
        additionalFixes := "" }

/-- The fixed header lines and the universal backup block that
`generateFixScript` pushes first (15 lines). -/
def headerBackupLines (fixId timestamp : String) : List String :=
  [("#!/usr/bin/env bash"),
   ("# ClawFix Fix Script — ") ++ fixId,
   ("# Generated: ") ++ timestamp,
   ("# Review each step before running!"),
   ("#"),
   ("# Usage: bash fix.sh"),
   (""),
   ("set -euo pipefail"),
   (""),
   ("# Backup current config"),
   ("if [ -f ~/.openclaw/openclaw.json ]; then"),
   ("  cp ~/.openclaw/openclaw.json ~/.openclaw/openclaw.json.bak.$(date +%s)"),
   ("  echo \"✅ Config backed up\""),
   ("fi"),
   ("")]

/-- The titled block pushed for one matched issue: severity-tagged header,
description comment, the fix body verbatim, a blank separator. -/
def issueBlockLines (issue : DetectionResult) : List String :=
  [("# ─── Fix: ") ++ issue.title ++ (" (") ++ issue.severity ++ (") ───"),
   ("# ") ++ issue.description,
   issue.fix,
   ("")]

/-- The header of the AI-sourced fixes block. -/
def aiHeaderLine : String := "# ─── Additional AI-Recommended Fixes ───"

/-- The optional AI-fixes block (pushed only for a truthy `additionalFixes`). -/
def aiFixesLines (aiAnalysis : AIAnalysis) : List String :=
  if aiAnalysis.additionalFixes == "" then []
  else [aiHeaderLine, aiAnalysis.additionalFixes, ("")]

/-- The header of the conditional restart block. -/
def restartHeaderLine : String := "# ─── Restart Gateway to Apply Changes ───"

/-- The restart-gate of `generateFixScript`: some matched issue\x27s fix text
contains the substring `openclaw.json`. -/
def needsRestart (knownIssues : List DetectionResult) : Bool :=
  knownIssues.any (fun i => strContains i.fix ("openclaw.json"))

/-- The restart block body. -/
def restartBlockLines : List String :=
  [restartHeaderLine,
   ("echo \"Restarting OpenClaw gateway...\""),
   ("openclaw gateway restart 2>/dev/null || echo \"⚠️  Could not restart gateway automatically. Run: openclaw gateway restart\""),
   ("")]

/-- The conditional restart block. -/
def restartLines (knownIssues : List DetectionResult) : List String :=
  if needsRestart knownIssues then restartBlockLines else []

/-- The completion banner line. -/
def completionBannerLine : String :=
  "echo \"🦞 All fixes applied! Run \x27openclaw status\x27 to verify.\""

/-- The trailing completion lines, ending with the fix-id echo. -/
def completionLines (fixId : String) : List String :=
  [("echo \"\""), completionBannerLine, ("echo \"Fix ID: ") ++ fixId ++ ("\"")]

/-- The `lines` array built by `generateFixScript` (header and backup block,
one block per matched issue in the order given, the optional AI block, the
conditional restart block, the completion banner), before `lines.join('\n')`.
The wall-clock `new Date().toISOString()` is passed in as `timestamp`. -/
def fixScriptLines (knownIssues : List DetectionResult) (aiAnalysis : AIAnalysis)
    (fixId timestamp : String) : List String :=
  headerBackupLines fixId timestamp
  ++ (knownIssues.map issueBlockLines).flatten
  ++ aiFixesLines aiAnalysis
  ++ restartLines knownIssues
  ++ completionLines fixId

/-- `generateFixScript` from `src/routes/diagnose.js`. -/
def generateFixScript (knownIssues : List DetectionResult) (aiAnalysis : AIAnalysis)
    (fixId timestamp : String) : String :=
  String.intercalate ("\n") (fixScriptLines knownIssues aiAnalysis fixId timestamp)

/-- The per-issue summary stored in an Analysis Result (fix text stripped). -/
structure KnownIssueSummary where
  id : String
  severity : String
  title : String
  description : String
deriving DecidableEq

/-- The record stored in the `fixes` map and returned by the diagnose route. -/
structure AnalysisResult where
  fixId : String
  timestamp : String
  issuesFound : Nat
  knownIssues : List KnownIssueSummary
  analysis : String
  fixScript : String
  aiInsights : String
deriving DecidableEq

/-- The in-memory `fixes` map: key/value pairs in insertion order
(a JavaScript `Map` iterates in insertion order). -/
abbrev Store := List (String × AnalysisResult)

/-- `Map.prototype.set`: update in place if the key exists, else append. -/
def mapSet (m : Store) (k : String) (v : AnalysisResult) : Store :=
  if m.any (fun p => p.1 == k) then m.map (fun p => if p.1 == k then (k, v) else p)
  else m ++ [(k, v)]

/-- `Map.prototype.get`. -/
def mapGet (m : Store) (k : String) : Option AnalysisResult :=
  (m.find? (fun p => p.1 == k)).map (fun p => p.2)

/-- The store step of the diagnose route: `fixes.set(fixId, result)`, then
if the size exceeds 1000, delete the first (oldest-inserted) key. -/
def storeInsert (m : Store) (k : String) (v : AnalysisResult) : Store :=
  let m2 := mapSet m k v
  if m2.length > 1000 then m2.drop 1 else m2

/-- Folding a sequence of route-level insertions into the store. -/
def insertAll (m : Store) (xs : List (String × AnalysisResult)) : Store :=
  xs.foldl (fun acc p => storeInsert acc p.1 p.2) m

/-- The responses of `POST /api/diagnose`. -/
inductive DiagnoseResponse where
  | badRequest (error hint : String)
  | ok (result : AnalysisResult)
deriving DecidableEq

/-- The 400 error body of the diagnose route. -/
def invalidPayloadError : String := "Invalid diagnostic payload"

/-- The 400 hint of the diagnose route. -/
def regenerateHint : String := "Run the diagnostic script: curl -sSL clawfix.com/fix | bash"

/-- The Analysis Result assembled on the success path of the diagnose
route: pattern matching, AI analysis, script composition, then the stored
record. -/
def diagnoseResult (catalog : List IssueDef) (diagnostic : JsonVal)
    (aiCall : Except String String) (fixId timestamp : String) : AnalysisResult :=
  let knownIssues := detectIssuesIn catalog diagnostic
  let aiAnalysis := analyzeWithAI aiCall knownIssues
  { fixId := fixId
    timestamp := timestamp
    issuesFound := knownIssues.length + aiAnalysis.additionalIssues.length
    knownIssues := knownIssues.map (fun i =>
      { id := i.id, severity := i.severity, title := i.title, description := i.description })
    analysis := aiAnalysis.summary
    fixScript := generateFixScript knownIssues aiAnalysis fixId timestamp
    aiInsights := jsOrString aiAnalysis.insights ("") }

/-- The `POST /api/diagnose` handler over an explicit store. `body` is the
parsed request body (`none` models a missing/undefined body), `aiCall` the
outcome of the provider call, `fixId` the fresh `nanoid(12)`, `timestamp`
the wall clock. Returns the response and the updated store. -/
def diagnose (catalog : List IssueDef) (store : Store) (body : Option JsonVal)
    (aiCall : Except String String) (fixId timestamp : String) :
    DiagnoseResponse × Store :=
  match body with
  | none => (.badRequest invalidPayloadError regenerateHint, store)
  | some diagnostic =>
      if truthyV diagnostic && truthyO (getField diagnostic ("system")) then
        let result := diagnoseResult catalog diagnostic aiCall fixId timestamp
        (.ok result, storeInsert store fixId result)
      else (.badRequest invalidPayloadError regenerateHint, store)

/-- The responses of `GET /api/fix/:fixId`. -/
inductive FixRetrievalResponse where
  | notFound
  | jsonResult (r : AnalysisResult)
  | scriptText (s : String)
deriving DecidableEq

/-- The `GET /api/fix/:fixId` handler: 404 for an unknown or evicted id,
otherwise the stored record (or just its script text when the plain-text
representation is requested). -/
def getFixRoute (store : Store) (fixId : String) (wantScript : Bool) : FixRetrievalResponse :=
  match mapGet store fixId with
  | none => .notFound
  | some found => if wantScript then .scriptText found.fixScript else .jsonResult found

end ClawFix

namespace ClawFix

/-- The marker with which every per-issue block header starts. -/
def fixHeaderMarker : String := "# ─── Fix: "

/-- Is a script line the header of a per-issue fix block? -/
def isFixHeader (l : String) : Bool :=
  fixHeaderMarker.data.isPrefixOf l.data

/-- The header line emitted for one Detection Result. -/
def headerLineOf (issue : DetectionResult) : String :=
  ("# ─── Fix: ") ++ issue.title ++ (" (") ++ issue.severity ++ (") ───")

/-- Modelled from the spec: the severity order `critical > high > medium >
low` as a rank (lower rank = more severe). Used only to compare the
program\x27s block ordering against the spec\x27s severity ordering. -/
def specSeverityRank : String → Nat
  | "critical" => 0
  | "high" => 1
  | "medium" => 2
  | "low" => 3
  | _ => 4

/-- A minimal valid payload: `system` present, everything else absent. -/
def pMin : JsonVal := .obj [("system", .str ("present"))]

/-- The exact payload of the C7 scenario as the claim words it: the plugin
entry is keyed `"mem0"`. -/
def pC7 : JsonVal :=
  .obj [("system", .str ("ok")),
        ("config", .obj [("plugins", .obj [("entries", .obj [("mem0",
          .obj [("config", .obj [("enableGraph", .bool true)])])])])])]

/-- The C7 scenario against the catalog as written: the plugin entry is
keyed `"openclaw-mem0"`, and the payload also carries the configuration
that keeps every feature-absent rule quiet. -/
def pC7fixed : JsonVal :=
  .obj [("system", .str ("ok")),
        ("config", .obj [
          ("plugins", .obj [("entries", .obj [("openclaw-mem0",
            .obj [("config", .obj [("enableGraph", .bool true)])])])]),
          ("agents", .obj [("defaults", .obj [
            ("memorySearch", .obj [("query", .obj [("hybrid", .obj [("enabled", .bool true)])])]),
            ("contextPruning", .obj [("mode", .str ("cache-ttl"))]),
            ("compaction", .obj [("memoryFlush", .obj [("enabled", .bool true)])])])])]),
        ("workspace", .obj [("hasSoul", .bool true)])]

/-- A payload that matches no catalog rule at all. -/
def pQuiet : JsonVal :=
  .obj [("system", .str ("ok")),
        ("config", .obj [
          ("agents", .obj [("defaults", .obj [
            ("memorySearch", .obj [("query", .obj [("hybrid", .obj [("enabled", .bool true)])])]),
            ("contextPruning", .obj [("mode", .str ("cache-ttl"))]),
            ("compaction", .obj [("memoryFlush", .obj [("enabled", .bool true)])])])])]),
        ("workspace", .obj [("hasSoul", .bool true)])]

/-- An augmentor output with no additional fixes (the degraded shape). -/
def emptyAI : AIAnalysis := { summary := "", insights := "", additionalIssues := [], additionalFixes := "" }

/-- An augmentor success whose response carries a fix section that
references the persisted configuration file. -/
def aiWithConfigFix : AIAnalysis :=
  analyzeWithAI (.ok ("fix:\njq \x27.gateway.port = 18790\x27 ~/.openclaw/openclaw.json > /tmp/oc.json"))
    []

/-- A rule whose predicate always throws, for exercising fault isolation. -/
def throwingRule : IssueDef :=
  { id := "throwing-rule", severity := "low", title := "Always throws",
    description := "detect raises on every payload", detect := fun _ => .error (),
    fix := "# no fix" }

end ClawFix

namespace ClawFix

theorem isPrefixOf_append_eq_false (pre a b : List Char)
    (hne : a.take pre.length ≠ pre) (hlen : pre.length ≤ a.length) :
    pre.isPrefixOf (a ++ b) = false := by
  rw [← Bool.not_eq_true, List.isPrefixOf_iff_prefix]
  intro hp
  apply hne
  have h1 := List.prefix_iff_eq_take.mp hp
  rw [List.take_append_of_le_length hlen] at h1
  exact h1.symm

theorem string_append_ne (s t r : String)
    (h : r.data.take s.data.length ≠ s.data) : s ++ t ≠ r := by
  intro he
  apply h
  have hd : s.data ++ t.data = r.data := by
    rw [← String.data_append]; exact congrArg String.data he
  rw [← hd, List.take_left]

theorem isFixHeader_append_eq_false (s t : String)
    (hne : s.data.take fixHeaderMarker.data.length ≠ fixHeaderMarker.data)
    (hlen : fixHeaderMarker.data.length ≤ s.data.length) :
    isFixHeader (s ++ t) = false := by
  unfold isFixHeader
  rw [String.data_append]
  exact isPrefixOf_append_eq_false _ _ _ hne hlen

theorem isFixHeader_headerLineOf (issue : DetectionResult) :
    isFixHeader (headerLineOf issue) = true := by
  unfold isFixHeader headerLineOf fixHeaderMarker
  rw [List.isPrefixOf_iff_prefix]
  simp only [String.data_append, List.append_assoc]
  exact List.prefix_append _ _

/-- C1: if an issue definition\x27s detect predicate throws when evaluated on
a payload, `detectIssues` treats that issue as not detected: the returned
ordered sequence of Detection Results equals the one produced with that
rule removed from the catalog, and no other rule is affected. -/
theorem claim_C1_fault_isolation (pre post : List IssueDef) (d : IssueDef) (p : JsonVal)
    (h : d.detect p = .error ()) :
    detectIssuesIn (pre ++ d :: post) p = detectIssuesIn (pre ++ post) p := by
  have hd : safeDetect d p = false := by unfold safeDetect; rw [h]
  unfold detectIssuesIn
  rw [List.filter_append, List.filter_append, List.filter_cons, hd]
  simp

theorem claim_C1_witness :
    throwingRule.detect (JsonVal.obj []) = .error () ∧
    detectIssuesIn ([mem0GraphFree] ++ throwingRule :: [noSoul]) (JsonVal.obj []) =
      detectIssuesIn ([mem0GraphFree] ++ [noSoul]) (JsonVal.obj []) :=
  ⟨rfl, claim_C1_fault_isolation [mem0GraphFree] [noSoul] throwingRule (JsonVal.obj []) rfl⟩

/-- C2: a request body that is absent or lacks the top-level `system` field
is rejected with the invalid-input error and the regeneration hint, the
store is unchanged, and the outcome is the same for every catalog and every
augmentor outcome — no detection rule runs and the augmentor is never
consulted. -/
theorem claim_C2_reject_missing_system (catalog : List IssueDef) (store : Store)
    (body : Option JsonVal) (aiCall : Except String String) (fixId timestamp : String)
    (h : body = none ∨ ∃ d, body = some d ∧ getField d ("system") = none) :
    diagnose catalog store body aiCall fixId timestamp =
      (.badRequest invalidPayloadError regenerateHint, store) ∧
    ∀ (catalog2 : List IssueDef) (aiCall2 : Except String String),
      diagnose catalog2 store body aiCall2 fixId timestamp =
        diagnose catalog store body aiCall fixId timestamp := by
  obtain rfl | ⟨d, rfl, hd⟩ := h
  · exact ⟨rfl, fun _ _ => rfl⟩
  · have hc : (truthyV d && truthyO (getField d ("system"))) = false := by
      rw [hd]; simp [truthyO]
    refine ⟨?_, ?_⟩
    · simp only [diagnose, hc, Bool.false_eq_true, if_false]
    · intro c2 a2
      simp only [diagnose, hc, Bool.false_eq_true, if_false]

theorem claim_C2_witness :
    (some (JsonVal.obj [(("config"), JsonVal.obj [])]) = none ∨
      ∃ d, some (JsonVal.obj [(("config"), JsonVal.obj [])]) = some d ∧
        getField d ("system") = none) ∧
    diagnose KNOWN_ISSUES [] (some (JsonVal.obj [(("config"), JsonVal.obj [])]))
        (.error ("provider down")) ("fid-c2") ("ts-c2") =
      (.badRequest invalidPayloadError regenerateHint, []) :=
  ⟨Or.inr ⟨JsonVal.obj [(("config"), JsonVal.obj [])], rfl, by rfl⟩,
   (claim_C2_reject_missing_system KNOWN_ISSUES [] _ (.error ("provider down"))
      ("fid-c2") ("ts-c2")
      (Or.inr ⟨JsonVal.obj [(("config"), JsonVal.obj [])], rfl, by rfl⟩)).1⟩

end ClawFix

namespace ClawFix

theorem isFixHeader_append2_eq_false (a x y : String)
    (hne : a.data.take fixHeaderMarker.data.length ≠ fixHeaderMarker.data)
    (hlen : fixHeaderMarker.data.length ≤ a.data.length) :
    isFixHeader ((a ++ x) ++ y) = false := by
  unfold isFixHeader
  rw [String.data_append, String.data_append, List.append_assoc]
  exact isPrefixOf_append_eq_false _ _ _ hne hlen

theorem string_append2_ne (a x y r : String)
    (h : r.data.take a.data.length ≠ a.data) : (a ++ x) ++ y ≠ r := by
  intro he
  apply h
  have hd : (a.data ++ x.data) ++ y.data = r.data := by
    rw [← String.data_append, ← String.data_append]
    exact congrArg String.data he
  rw [← hd, List.append_assoc, List.take_left]

set_option maxHeartbeats 1000000 in
theorem catalog_results_clean : ∀ i ∈ KNOWN_ISSUES.map toResult,
    isFixHeader (("# ") ++ i.description) = false ∧ isFixHeader i.fix = false ∧
    i.fix ≠ restartHeaderLine ∧ (("# ") ++ i.description) ≠ restartHeaderLine ∧
    i.fix ≠ aiHeaderLine ∧ (("# ") ++ i.description) ≠ aiHeaderLine := by decide

theorem mem_catalog_results_of_detect (p : JsonVal) :
    ∀ i ∈ detectIssues p, i ∈ KNOWN_ISSUES.map toResult := by
  intro i hi
  unfold detectIssues detectIssuesIn at hi
  obtain ⟨a, ha, rfl⟩ := List.mem_map.mp hi
  exact List.mem_map.mpr ⟨a, (List.mem_filter.mp ha).1, rfl⟩

theorem filter_isFixHeader_headerBackup (fid ts : String) :
    (headerBackupLines fid ts).filter isFixHeader = [] := by
  have h1 : isFixHeader (("# ClawFix Fix Script — ") ++ fid) = false :=
    isFixHeader_append_eq_false _ _ (by decide) (by decide)
  have h2 : isFixHeader (("# Generated: ") ++ ts) = false :=
    isFixHeader_append_eq_false _ _ (by decide) (by decide)
  simp +decide [headerBackupLines, List.filter_cons, h1, h2]

theorem filter_isFixHeader_flatten (issues : List DetectionResult)
    (hcl : ∀ i ∈ issues,
      isFixHeader (("# ") ++ i.description) = false ∧ isFixHeader i.fix = false) :
    ((issues.map issueBlockLines).flatten).filter isFixHeader = issues.map headerLineOf := by
  induction issues with
  | nil => rfl
  | cons a t ih =>
      have ha := hcl a (List.mem_cons_self _ _)
      have hh : isFixHeader (headerLineOf a) = true := isFixHeader_headerLineOf a
      simp only [List.map_cons, List.flatten_cons, List.filter_append]
      rw [ih (fun i hi => hcl i (List.mem_cons_of_mem _ hi))]
      have hblock : (issueBlockLines a).filter isFixHeader = [headerLineOf a] := by
        simp +decide [issueBlockLines, List.filter_cons, ha.1, ha.2, headerLineOf] at *
        simp [hh]
      rw [hblock]
      rfl

theorem filter_isFixHeader_aiFixes (ai : AIAnalysis)
    (hai : isFixHeader ai.additionalFixes = false) :
    (aiFixesLines ai).filter isFixHeader = [] := by
  unfold aiFixesLines
  cases h : (ai.additionalFixes == "")
  · simp +decide [List.filter_cons, hai]
  · rfl

theorem filter_isFixHeader_restart (issues : List DetectionResult) :
    (restartLines issues).filter isFixHeader = [] := by
  unfold restartLines
  cases needsRestart issues
  · rfl
  · decide

theorem filter_isFixHeader_completion (fid : String) :
    (completionLines fid).filter isFixHeader = [] := by
  have h3 : isFixHeader ((("echo \"Fix ID: ") ++ fid) ++ ("\"")) = false :=
    isFixHeader_append2_eq_false _ _ _ (by decide) (by decide)
  simp +decide [completionLines, List.filter_cons, h3]

theorem filter_fixScriptLines (issues : List DetectionResult) (ai : AIAnalysis)
    (fid ts : String)
    (hcl : ∀ i ∈ issues,
      isFixHeader (("# ") ++ i.description) = false ∧ isFixHeader i.fix = false)
    (hai : isFixHeader ai.additionalFixes = false) :
    (fixScriptLines issues ai fid ts).filter isFixHeader = issues.map headerLineOf := by
  unfold fixScriptLines
  rw [List.filter_append, List.filter_append, List.filter_append, List.filter_append,
      filter_isFixHeader_headerBackup, filter_isFixHeader_flatten issues hcl,
      filter_isFixHeader_aiFixes ai hai, filter_isFixHeader_restart issues,
      filter_isFixHeader_completion fid]
  simp

/-- C3: the composed script emits one titled block per Detection Result, in
exactly the order produced by the detector, which is catalog declaration
order — the block headers of the script equal the headers of the
catalog-ordered matches and in particular are not re-sorted by severity. -/
theorem claim_C3_script_blocks_catalog_order (p : JsonVal) (ai : AIAnalysis)
    (fid ts : String) (hai : isFixHeader ai.additionalFixes = false) :
    (fixScriptLines (detectIssues p) ai fid ts).filter isFixHeader =
      (KNOWN_ISSUES.filter (fun i => safeDetect i p)).map (fun i => headerLineOf (toResult i)) := by
  rw [filter_fixScriptLines (detectIssues p) ai fid ts
        (fun i hi => by
          have h := catalog_results_clean i (mem_catalog_results_of_detect p i hi)
          exact ⟨h.1, h.2.1⟩)
        hai]
  unfold detectIssues detectIssuesIn
  rw [List.map_map]
  rfl

set_option maxHeartbeats 1000000 in
theorem claim_C3_witness :
    isFixHeader emptyAI.additionalFixes = false ∧
    (fixScriptLines (detectIssues pMin) emptyAI ("fid-c3") ("ts-c3")).filter isFixHeader =
      (KNOWN_ISSUES.filter (fun i => safeDetect i pMin)).map (fun i => headerLineOf (toResult i)) :=
  ⟨by decide, claim_C3_script_blocks_catalog_order pMin emptyAI ("fid-c3") ("ts-c3") (by decide)⟩

end ClawFix

namespace ClawFix

theorem headerLineOf_ne (i : DetectionResult) (r : String)
    (hr : isFixHeader r = false) : headerLineOf i ≠ r := by
  intro h
  have := isFixHeader_headerLineOf i
  rw [h, hr] at this
  exact Bool.false_ne_true this

theorem not_mem_headerBackup (x fid ts : String)
    (h1 : x ≠ ("#!/usr/bin/env bash")) (h2 : x ≠ ("# Review each step before running!"))
    (h3 : x ≠ ("#")) (h4 : x ≠ ("# Usage: bash fix.sh")) (h5 : x ≠ (""))
    (h6 : x ≠ ("set -euo pipefail")) (h7 : x ≠ ("# Backup current config"))
    (h8 : x ≠ ("if [ -f ~/.openclaw/openclaw.json ]; then"))
    (h9 : x ≠ ("  cp ~/.openclaw/openclaw.json ~/.openclaw/openclaw.json.bak.$(date +%s)"))
    (h10 : x ≠ ("  echo \"✅ Config backed up\"")) (h11 : x ≠ ("fi"))
    (h12 : ("# ClawFix Fix Script — ") ++ fid ≠ x)
    (h13 : ("# Generated: ") ++ ts ≠ x) :
    x ∉ headerBackupLines fid ts := by
  intro hm
  simp only [headerBackupLines, List.mem_cons, List.not_mem_nil, or_false] at hm
  rcases hm with h|h|h|h|h|h|h|h|h|h|h|h|h|h|h
  · exact h1 h
  · exact h12 h.symm
  · exact h13 h.symm
  · exact h2 h
  · exact h3 h
  · exact h4 h
  · exact h5 h
  · exact h6 h
  · exact h5 h
  · exact h7 h
  · exact h8 h
  · exact h9 h
  · exact h10 h
  · exact h11 h
  · exact h5 h

theorem not_mem_completion (x fid : String)
    (h1 : x ≠ ("echo \"\"")) (h2 : x ≠ completionBannerLine)
    (h3 : (("echo \"Fix ID: ") ++ fid) ++ ("\"") ≠ x) :
    x ∉ completionLines fid := by
  intro hm
  simp only [completionLines, List.mem_cons, List.not_mem_nil, or_false] at hm
  rcases hm with h|h|h
  · exact h1 h
  · exact h2 h
  · exact h3 h.symm

theorem not_mem_blocks (x : String) (issues : List DetectionResult)
    (hIss : ∀ i ∈ issues, i ∈ KNOWN_ISSUES.map toResult)
    (hfh : isFixHeader x = false)
    (hcl : ∀ i ∈ KNOWN_ISSUES.map toResult,
      (("# ") ++ i.description) ≠ x ∧ i.fix ≠ x)
    (hne : x ≠ ("")) :
    x ∉ (issues.map issueBlockLines).flatten := by
  intro hm
  obtain ⟨l, hl, hx⟩ := List.mem_flatten.mp hm
  obtain ⟨i, hi, rfl⟩ := List.mem_map.mp hl
  have hci := hcl i (hIss i hi)
  simp only [issueBlockLines, List.mem_cons, List.not_mem_nil, or_false] at hx
  rcases hx with h|h|h|h
  · exact (headerLineOf_ne i x hfh) h.symm
  · exact hci.1 h.symm
  · exact hci.2 h.symm
  · exact hne h

end ClawFix

namespace ClawFix

set_option maxHeartbeats 1000000 in
theorem catalog_results_ne_markers : ∀ i ∈ KNOWN_ISSUES.map toResult,
    ((("# ") ++ i.description) ≠ restartHeaderLine ∧ i.fix ≠ restartHeaderLine) ∧
    ((("# ") ++ i.description) ≠ aiHeaderLine ∧ i.fix ≠ aiHeaderLine) := by decide

theorem restartHeader_mem_fixScriptLines_iff (issues : List DetectionResult)
    (ai : AIAnalysis) (fid ts : String)
    (hIss : ∀ i ∈ issues, i ∈ KNOWN_ISSUES.map toResult)
    (hai : ai.additionalFixes ≠ restartHeaderLine) :
    (restartHeaderLine ∈ fixScriptLines issues ai fid ts ↔ needsRestart issues = true) := by
  unfold fixScriptLines
  constructor
  · intro hm
    rcases List.mem_append.mp hm with hm | hm5
    rcases List.mem_append.mp hm with hm | hm4
    rcases List.mem_append.mp hm with hm | hm3
    rcases List.mem_append.mp hm with hm1 | hm2
    · exact absurd hm1 (not_mem_headerBackup _ fid ts (by decide) (by decide) (by decide)
        (by decide) (by decide) (by decide) (by decide) (by decide) (by decide) (by decide)
        (by decide) (string_append_ne _ _ _ (by decide)) (string_append_ne _ _ _ (by decide)))
    · exact absurd hm2 (not_mem_blocks _ issues hIss (by decide)
        (fun i hi => (catalog_results_ne_markers i hi).1) (by decide))
    · unfold aiFixesLines at hm3
      rcases hb : (ai.additionalFixes == "") with _ | _
      · rw [hb] at hm3
        simp only [Bool.false_eq_true, if_false, List.mem_cons, List.not_mem_nil, or_false] at hm3
        rcases hm3 with h|h|h
        · exact absurd h (by decide)
        · exact absurd h.symm hai
        · exact absurd h (by decide)
      · rw [hb] at hm3
        simp at hm3
    · unfold restartLines at hm4
      cases hr : needsRestart issues
      · rw [hr] at hm4; simp at hm4
      · rfl
    · exact absurd hm5 (not_mem_completion _ fid (by decide) (by decide)
        (string_append2_ne _ _ _ _ (by decide)))
  · intro hr
    apply List.mem_append.mpr
    apply Or.inl
    apply List.mem_append.mpr
    apply Or.inr
    unfold restartLines
    rw [hr]
    simp [restartBlockLines]

theorem aiHeader_mem_fixScriptLines_iff (issues : List DetectionResult)
    (ai : AIAnalysis) (fid ts : String)
    (hIss : ∀ i ∈ issues, i ∈ KNOWN_ISSUES.map toResult) :
    (aiHeaderLine ∈ fixScriptLines issues ai fid ts ↔ ai.additionalFixes ≠ ("")) := by
  unfold fixScriptLines
  constructor
  · intro hm
    rcases List.mem_append.mp hm with hm | hm5
    rcases List.mem_append.mp hm with hm | hm4
    rcases List.mem_append.mp hm with hm | hm3
    rcases List.mem_append.mp hm with hm1 | hm2
    · exact absurd hm1 (not_mem_headerBackup _ fid ts (by decide) (by decide) (by decide)
        (by decide) (by decide) (by decide) (by decide) (by decide) (by decide) (by decide)
        (by decide) (string_append_ne _ _ _ (by decide)) (string_append_ne _ _ _ (by decide)))
    · exact absurd hm2 (not_mem_blocks _ issues hIss (by decide)
        (fun i hi => (catalog_results_ne_markers i hi).2) (by decide))
    · unfold aiFixesLines at hm3
      rcases hb : (ai.additionalFixes == "") with _ | _
      · intro he
        rw [he] at hb
        simp at hb
      · rw [hb] at hm3
        simp at hm3
    · unfold restartLines at hm4
      cases hr : needsRestart issues
      · rw [hr] at hm4; simp at hm4
      · rw [hr] at hm4
        simp only [if_true, restartBlockLines, List.mem_cons, List.not_mem_nil, or_false] at hm4
        rcases hm4 with h|h|h|h
        · exact absurd h (by decide)
        · exact absurd h (by decide)
        · exact absurd h (by decide)
        · exact absurd h (by decide)
    · exact absurd hm5 (not_mem_completion _ fid (by decide) (by decide)
        (string_append2_ne _ _ _ _ (by decide)))
  · intro hne
    apply List.mem_append.mpr
    apply Or.inl
    apply List.mem_append.mpr
    apply Or.inl
    apply List.mem_append.mpr
    apply Or.inr
    unfold aiFixesLines
    have hb : (ai.additionalFixes == "") = false := by
      rcases hb : (ai.additionalFixes == "") with _ | _
      · rfl
      · exact absurd (by simpa using hb) hne
    rw [hb]
    simp

end ClawFix

namespace ClawFix

set_option maxHeartbeats 4000000 in
set_option maxRecDepth 100000 in
/-- C4 counterexample: for the minimal valid payload the matched issues
carry severities medium, medium, high, low in emitted block order, so the
per-issue fixes of the composed script are not ordered by severity
(critical before high before medium before low) — a high-severity block
follows two medium ones. -/
theorem claim_C4_counterexample :
    (detectIssues pMin).map (fun r => r.severity) =
      [("medium"), ("medium"), ("high"), ("low")] ∧
    (fixScriptLines (detectIssues pMin)
        (analyzeWithAI (.error ("timeout")) (detectIssues pMin)) ("fid-c4") ("ts-c4")).filter
        isFixHeader =
      (detectIssues pMin).map headerLineOf ∧
    ¬ List.Sorted (· ≤ ·)
        ((detectIssues pMin).map (fun r => specSeverityRank r.severity)) := by
  refine ⟨by decide, by decide, by decide⟩

/-- C4 (amended): the Composer merges matched-issue fix fragments and
AI-provided fragments into one ordered script: the backup step first, then
one titled block per matched issue in detector (catalog) order — not
severity order — then the AI block exactly when AI-provided fixes are
nonempty, then the restart block exactly when some catalog-matched fix body
references the persisted configuration file, then the completion banner
ending with the fix identifier. -/
theorem claim_C4_amended_structure (p : JsonVal) (ai : AIAnalysis) (fid ts : String)
    (hai1 : isFixHeader ai.additionalFixes = false)
    (hai2 : ai.additionalFixes ≠ restartHeaderLine) :
    (fixScriptLines (detectIssues p) ai fid ts).take 15 = headerBackupLines fid ts ∧
    (fixScriptLines (detectIssues p) ai fid ts).filter isFixHeader =
      (detectIssues p).map headerLineOf ∧
    (aiHeaderLine ∈ fixScriptLines (detectIssues p) ai fid ts ↔ ai.additionalFixes ≠ ("")) ∧
    (restartHeaderLine ∈ fixScriptLines (detectIssues p) ai fid ts ↔
      needsRestart (detectIssues p) = true) ∧
    (fixScriptLines (detectIssues p) ai fid ts).getLast? =
      some ((("echo \"Fix ID: ") ++ fid) ++ ("\"")) := by
  refine ⟨?_, ?_, ?_, ?_, ?_⟩
  · unfold fixScriptLines
    rw [List.append_assoc, List.append_assoc, List.append_assoc]
    exact List.take_left' (by simp [headerBackupLines])
  · exact filter_fixScriptLines (detectIssues p) ai fid ts
      (fun i hi => by
        have h := catalog_results_clean i (mem_catalog_results_of_detect p i hi)
        exact ⟨h.1, h.2.1⟩)
      hai1
  · exact aiHeader_mem_fixScriptLines_iff (detectIssues p) ai fid ts
      (mem_catalog_results_of_detect p)
  · exact restartHeader_mem_fixScriptLines_iff (detectIssues p) ai fid ts
      (mem_catalog_results_of_detect p) hai2
  · simp [fixScriptLines, List.getLast?_append, completionLines]

set_option maxHeartbeats 1000000 in
theorem claim_C4_amended_witness :
    isFixHeader emptyAI.additionalFixes = false ∧
    emptyAI.additionalFixes ≠ restartHeaderLine ∧
    ((fixScriptLines (detectIssues pMin) emptyAI ("fid-c4w") ("ts-c4w")).take 15 =
        headerBackupLines ("fid-c4w") ("ts-c4w") ∧
      (fixScriptLines (detectIssues pMin) emptyAI ("fid-c4w") ("ts-c4w")).filter isFixHeader =
        (detectIssues pMin).map headerLineOf ∧
      (aiHeaderLine ∈ fixScriptLines (detectIssues pMin) emptyAI ("fid-c4w") ("ts-c4w") ↔
        emptyAI.additionalFixes ≠ ("")) ∧
      (restartHeaderLine ∈ fixScriptLines (detectIssues pMin) emptyAI ("fid-c4w") ("ts-c4w") ↔
        needsRestart (detectIssues pMin) = true) ∧
      (fixScriptLines (detectIssues pMin) emptyAI ("fid-c4w") ("ts-c4w")).getLast? =
        some ((("echo \"Fix ID: ") ++ ("fid-c4w")) ++ ("\""))) :=
  ⟨by decide, by decide,
   claim_C4_amended_structure pMin emptyAI ("fid-c4w") ("ts-c4w") (by decide) (by decide)⟩

end ClawFix

namespace ClawFix

theorem diagnose_success (catalog : List IssueDef) (store : Store) (d : JsonVal)
    (aiCall : Except String String) (fid ts : String)
    (hcond : (truthyV d && truthyO (getField d ("system"))) = true) :
    diagnose catalog store (some d) aiCall fid ts =
      (.ok (diagnoseResult catalog d aiCall fid ts),
       storeInsert store fid (diagnoseResult catalog d aiCall fid ts)) := by
  simp only [diagnose, hcond, if_true]

set_option maxHeartbeats 1000000 in
/-- C5: if the AI augmentor call fails for any reason, the diagnose
operation still succeeds with a degraded result: the summary states only
the pattern-matching count, insights and additionalFixes are empty, and
the composed script still contains every catalog-matched fix body and the
non-empty completion banner. -/
theorem claim_C5_ai_failure_degrades (store : Store) (d : JsonVal) (msg fid ts : String)
    (hb : truthyV d = true) (hs : truthyO (getField d ("system")) = true) :
    ∃ r, (diagnose KNOWN_ISSUES store (some d) (.error msg) fid ts).1 = .ok r ∧
      analyzeWithAI (.error msg) (detectIssues d) =
        { summary := ("Pattern matching found ") ++ toString (detectIssues d).length ++
            (" issue(s). AI analysis unavailable (") ++ msg ++ (")."),
          insights := "", additionalIssues := [], additionalFixes := "" } ∧
      r.analysis = ("Pattern matching found ") ++ toString (detectIssues d).length ++
        (" issue(s). AI analysis unavailable (") ++ msg ++ (").") ∧
      r.aiInsights = ("") ∧
      r.fixScript = generateFixScript (detectIssues d)
        (analyzeWithAI (.error msg) (detectIssues d)) fid ts ∧
      (∀ i ∈ detectIssues d, i.fix ∈
        fixScriptLines (detectIssues d) (analyzeWithAI (.error msg) (detectIssues d)) fid ts) ∧
      completionBannerLine ∈
        fixScriptLines (detectIssues d) (analyzeWithAI (.error msg) (detectIssues d)) fid ts ∧
      completionBannerLine ≠ ("") := by
  have hcond : (truthyV d && truthyO (getField d ("system"))) = true := by
    rw [hb, hs]; rfl
  refine ⟨diagnoseResult KNOWN_ISSUES d (.error msg) fid ts, ?_, rfl, rfl, rfl, ?_, ?_, ?_, by decide⟩
  · rw [diagnose_success KNOWN_ISSUES store d (.error msg) fid ts hcond]
  · simp only [diagnoseResult, detectIssues]
  · intro i hi
    unfold fixScriptLines
    refine List.mem_append.mpr (Or.inl (List.mem_append.mpr (Or.inl
      (List.mem_append.mpr (Or.inl (List.mem_append.mpr (Or.inr ?_)))))))
    exact List.mem_flatten.mpr
      ⟨issueBlockLines i, List.mem_map.mpr ⟨i, hi, rfl⟩, by simp [issueBlockLines]⟩
  · unfold fixScriptLines
    refine List.mem_append.mpr (Or.inr ?_)
    simp [completionLines]

theorem claim_C5_witness :
    truthyV pMin = true ∧ truthyO (getField pMin ("system")) = true ∧
    ∃ r, (diagnose KNOWN_ISSUES [] (some pMin) (.error ("ECONNREFUSED")) ("fid-c5") ("ts-c5")).1 =
        .ok r ∧
      r.analysis = ("Pattern matching found ") ++ toString (detectIssues pMin).length ++
        (" issue(s). AI analysis unavailable (") ++ ("ECONNREFUSED") ++ (").") ∧
      r.aiInsights = ("") :=
  ⟨by decide, by decide,
   match claim_C5_ai_failure_degrades [] pMin ("ECONNREFUSED") ("fid-c5") ("ts-c5")
       (by decide) (by decide) with
   | ⟨r, h1, _, h3, h4, _, _, _, _⟩ => ⟨r, h1, h3, h4⟩⟩

end ClawFix

namespace ClawFix

theorem mapSet_of_fresh (m : Store) (k : String) (v : AnalysisResult)
    (h : ∀ p ∈ m, p.1 ≠ k) : mapSet m k v = m ++ [(k, v)] := by
  have hc : m.any (fun p => p.1 == k) = false := by
    rw [List.any_eq_false]
    intro p hp
    simpa using h p hp
  unfold mapSet
  rw [hc]
  simp

theorem storeInsert_len_le (m : Store) (k : String) (v : AnalysisResult)
    (h : m.length ≤ 1000) : (storeInsert m k v).length ≤ 1000 := by
  have hle : (mapSet m k v).length ≤ m.length + 1 := by
    unfold mapSet
    cases hc : m.any (fun p => p.1 == k) <;> simp
  show (if (mapSet m k v).length > 1000 then (mapSet m k v).drop 1
        else mapSet m k v).length ≤ 1000
  by_cases hgt : (mapSet m k v).length > 1000
  · rw [if_pos hgt]; simp only [List.length_drop]; omega
  · rw [if_neg hgt]; omega

theorem insertAll_fresh (xs : List (String × AnalysisResult)) :
    ∀ (m : Store), m.length ≤ 1000 →
    ((m ++ xs).map (fun p => p.1)).Nodup →
    insertAll m xs = (m ++ xs).drop (m.length + xs.length - 1000) := by
  induction xs with
  | nil =>
      intro m hlen _
      have hz : m.length - 1000 = 0 := by omega
      simp [insertAll, hz]
  | cons hd tl ih =>
      obtain ⟨k, v⟩ := hd
      intro m hlen hnd
      have hfresh : ∀ p ∈ m, p.1 ≠ k := by
        intro p hp he
        have hnd2 : (m.map (fun p => p.1) ++ k :: tl.map (fun p => p.1)).Nodup := by
          simpa using hnd
        have hdisj := List.nodup_append.mp hnd2
        exact hdisj.2.2 (List.mem_map.mpr ⟨p, hp, he⟩) (List.mem_cons_self _ _)
      have hms : mapSet m k v = m ++ [(k, v)] := mapSet_of_fresh m k v hfresh
      have hstep : insertAll m ((k, v) :: tl) = insertAll (storeInsert m k v) tl := rfl
      rw [hstep]
      by_cases hc : m.length + 1 > 1000
      · have h1000 : m.length = 1000 := by omega
        have hsi : storeInsert m k v = (m ++ [(k, v)]).drop 1 := by
          unfold storeInsert
          rw [hms, if_pos (by simp; omega)]
        have hnd3 : ((((m ++ [(k, v)]).drop 1) ++ tl).map (fun p => p.1)).Nodup := by
          have hbig : (((m ++ [(k, v)]) ++ tl).map (fun p => p.1)).Nodup := by
            rw [List.append_assoc]
            simpa using hnd
          exact hbig.sublist
            (List.Sublist.map _ ((List.drop_sublist 1 _).append_right tl))
        have hlen3 : ((m ++ [(k, v)]).drop 1).length ≤ 1000 := by
          simp only [List.length_drop, List.length_append, List.length_cons,
            List.length_nil]; omega
        rw [hsi, ih _ hlen3 hnd3]
        have hlen4 : ((m ++ [(k, v)]).drop 1).length = 1000 := by
          simp only [List.length_drop, List.length_append, List.length_cons,
            List.length_nil]; omega
        rw [hlen4]
        have he1 : ((m ++ [(k, v)]).drop 1) ++ tl = ((m ++ [(k, v)]) ++ tl).drop 1 :=
          (List.drop_append_of_le_length (by simp)).symm
        rw [he1, List.drop_drop]
        have he2 : (m ++ [(k, v)]) ++ tl = m ++ (k, v) :: tl := by simp
        rw [he2]
        have he3 : 1000 + tl.length - 1000 = tl.length := by omega
        have he4 : m.length + ((k, v) :: tl).length - 1000 = 1 + tl.length := by
          simp only [List.length_cons]; omega
        rw [he3, he4]
      · have hsi : storeInsert m k v = m ++ [(k, v)] := by
          unfold storeInsert
          rw [hms, if_neg (by simp; omega)]
        have hnd3 : (((m ++ [(k, v)]) ++ tl).map (fun p => p.1)).Nodup := by
          rw [List.append_assoc]
          simpa using hnd
        have hlen3 : (m ++ [(k, v)]).length ≤ 1000 := by
          simp only [List.length_append, List.length_cons, List.length_nil]; omega
        rw [hsi, ih _ hlen3 hnd3]
        have he2 : (m ++ [(k, v)]) ++ tl = m ++ (k, v) :: tl := by simp
        rw [he2]
        have he4 : (m ++ [(k, v)]).length + tl.length - 1000 =
            m.length + ((k, v) :: tl).length - 1000 := by
          simp only [List.length_append, List.length_cons, List.length_nil]; omega
        rw [he4]

end ClawFix

namespace ClawFix

theorem mapGet_eq_none_of_fresh (m : Store) (k : String)
    (h : ∀ p ∈ m, p.1 ≠ k) : mapGet m k = none := by
  unfold mapGet
  rw [List.find?_eq_none.mpr]
  · rfl
  · intro p hp
    simpa using h p hp

theorem mapGet_of_mem_nodup (m : Store) (kv : String × AnalysisResult)
    (hm : kv ∈ m) (hnd : (m.map (fun p => p.1)).Nodup) : mapGet m kv.1 = some kv.2 := by
  induction m with
  | nil => cases hm
  | cons a t ih =>
      rw [List.map_cons, List.nodup_cons] at hnd
      rcases List.mem_cons.mp hm with rfl | hmt
      · simp [mapGet, List.find?]
      · have hne : (a.1 == kv.1) = false := by
          have hk : kv.1 ∈ t.map (fun p => p.1) := List.mem_map.mpr ⟨kv, hmt, rfl⟩
          simp only [beq_eq_false_iff_ne, ne_eq]
          intro he
          exact hnd.1 (he ▸ hk)
        have ht := ih hmt hnd.2
        unfold mapGet at ht ⊢
        rw [List.find?_cons, hne]
        exact ht

/-- A concrete Analysis Result for witnesses. -/
def sampleResult (tag : String) : AnalysisResult :=
  { fixId := tag, timestamp := "ts", issuesFound := 0, knownIssues := [],
    analysis := "analysis", fixScript := "script", aiInsights := "" }

/-- C6: starting from the empty store, any sequence of fresh-keyed
route-level insertions retains exactly the most recently inserted 1000
records: the earliest-inserted entries are the ones evicted (insertion
order, one per overflowing insertion), the store never exceeds the fixed
capacity of 1000, retrieval of an evicted or unknown fix identifier
answers not-found, and retrieval of a retained identifier answers its
stored Analysis Result. -/
theorem claim_C6_store_capacity_eviction (xs : List (String × AnalysisResult))
    (hnd : (xs.map (fun p => p.1)).Nodup) :
    insertAll [] xs = xs.drop (xs.length - 1000) ∧
    (insertAll [] xs).length ≤ 1000 ∧
    (∀ k, (∀ p ∈ xs.drop (xs.length - 1000), p.1 ≠ k) →
      getFixRoute (insertAll [] xs) k false = .notFound) ∧
    (∀ kv ∈ xs.drop (xs.length - 1000),
      getFixRoute (insertAll [] xs) kv.1 false = .jsonResult kv.2) := by
  have hmain : insertAll [] xs = xs.drop (xs.length - 1000) := by
    have h := insertAll_fresh xs [] (by simp) (by simpa using hnd)
    simpa using h
  have hnd2 : ((xs.drop (xs.length - 1000)).map (fun p => p.1)).Nodup :=
    hnd.sublist (List.Sublist.map _ (List.drop_sublist _ _))
  refine ⟨hmain, ?_, ?_, ?_⟩
  · rw [hmain]
    simp only [List.length_drop]
    omega
  · intro k hk
    unfold getFixRoute
    rw [hmain, mapGet_eq_none_of_fresh _ _ hk]
  · intro kv hkv
    unfold getFixRoute
    rw [hmain, mapGet_of_mem_nodup _ kv hkv hnd2]
    rfl

theorem claim_C6_witness :
    (([(("ka"), sampleResult ("ka")), (("kb"), sampleResult ("kb"))]).map
        (fun p => p.1)).Nodup ∧
    insertAll [] [(("ka"), sampleResult ("ka")), (("kb"), sampleResult ("kb"))] =
      ([(("ka"), sampleResult ("ka")), (("kb"), sampleResult ("kb"))]).drop
        (([(("ka"), sampleResult ("ka")), (("kb"), sampleResult ("kb"))]).length - 1000) ∧
    getFixRoute
        (insertAll [] [(("ka"), sampleResult ("ka")), (("kb"), sampleResult ("kb"))])
        (("kb"), sampleResult ("kb")).1 false =
      .jsonResult (("kb"), sampleResult ("kb")).2 :=
  ⟨by decide,
   (claim_C6_store_capacity_eviction _ (by decide)).1,
   (claim_C6_store_capacity_eviction _ (by decide)).2.2.2
     (("kb"), sampleResult ("kb")) (by decide)⟩

end ClawFix

namespace ClawFix

set_option maxHeartbeats 4000000 in
set_option maxRecDepth 100000 in
/-- C7 counterexample: on the exact payload of the claim — `system`
present, `config.plugins.entries["mem0"].config.enableGraph === true`,
nothing else — detection does not produce `mem0-graph-free` at all (the
catalog predicate reads the key `openclaw-mem0`), and it produces four
Detection Results (the feature-absent rules), not exactly one. -/
theorem claim_C7_counterexample :
    (detectIssues pC7).map (fun r => r.id) =
      [("no-hybrid-search"), ("no-context-pruning"), ("no-memory-flush"), ("no-soul")] ∧
    (∀ r ∈ detectIssues pC7, r.id ≠ ("mem0-graph-free")) ∧
    (detectIssues pC7).length ≠ 1 := by
  refine ⟨by decide, by decide, by decide⟩

set_option maxHeartbeats 4000000 in
set_option maxRecDepth 100000 in
/-- C7 (amended): with the plugin entry keyed `openclaw-mem0` carrying
`config.enableGraph === true`, and the payload otherwise configured so
that no feature-absent rule fires (hybrid search enabled, context pruning
present, memory flush enabled, a SOUL file present), detection produces
exactly one Detection Result — id `mem0-graph-free`, severity `critical` —
the composed script contains exactly one issue block plus the backup step,
and a restart block is appended, because the emitted fix body references
the persisted configuration file `openclaw.json`. -/
theorem claim_C7_amended_scenario :
    (detectIssues pC7fixed).map (fun r => r.id) = [("mem0-graph-free")] ∧
    (detectIssues pC7fixed).map (fun r => r.severity) = [("critical")] ∧
    ((fixScriptLines (detectIssues pC7fixed)
        (analyzeWithAI (.error ("timeout")) (detectIssues pC7fixed))
        ("fid-c7") ("ts-c7")).filter isFixHeader).length = 1 ∧
    (fixScriptLines (detectIssues pC7fixed)
        (analyzeWithAI (.error ("timeout")) (detectIssues pC7fixed))
        ("fid-c7") ("ts-c7")).take 15 = headerBackupLines ("fid-c7") ("ts-c7") ∧
    strContains mem0GraphFree.fix ("openclaw.json") = true ∧
    restartHeaderLine ∈ fixScriptLines (detectIssues pC7fixed)
      (analyzeWithAI (.error ("timeout")) (detectIssues pC7fixed)) ("fid-c7") ("ts-c7") := by
  refine ⟨by decide, by decide, by decide, by decide, by decide, by decide⟩

set_option maxHeartbeats 4000000 in
set_option maxRecDepth 100000 in
/-- C8 counterexample: with no catalog-matched issue and an AI-provided
fix fragment that references the persisted configuration file
`openclaw.json`, the composed script emits that AI fix body yet appends no
restart block — the restart gate inspects only catalog-matched fix bodies,
so "catalog-matched or AI-provided" is refuted. -/
theorem claim_C8_counterexample :
    detectIssues pQuiet = [] ∧
    aiWithConfigFix.additionalFixes ≠ ("") ∧
    aiWithConfigFix.additionalFixes ∈
      fixScriptLines (detectIssues pQuiet) aiWithConfigFix ("fid-c8") ("ts-c8") ∧
    strContains aiWithConfigFix.additionalFixes ("openclaw.json") = true ∧
    restartHeaderLine ∉
      fixScriptLines (detectIssues pQuiet) aiWithConfigFix ("fid-c8") ("ts-c8") := by
  refine ⟨by decide, by decide, by decide, by decide, by decide⟩

/-- C8 (amended): the composed script contains the restart block if and
only if at least one catalog-matched fix body contains the marker
substring `openclaw.json`; AI-provided fragments are not inspected by the
gate. -/
theorem claim_C8_restart_gate (p : JsonVal) (ai : AIAnalysis) (fid ts : String)
    (hai : ai.additionalFixes ≠ restartHeaderLine) :
    (restartHeaderLine ∈ fixScriptLines (detectIssues p) ai fid ts ↔
      (detectIssues p).any (fun i => strContains i.fix ("openclaw.json")) = true) :=
  restartHeader_mem_fixScriptLines_iff (detectIssues p) ai fid ts
    (mem_catalog_results_of_detect p) hai

set_option maxHeartbeats 4000000 in
set_option maxRecDepth 100000 in
theorem claim_C8_restart_gate_witness :
    aiWithConfigFix.additionalFixes ≠ restartHeaderLine ∧
    (restartHeaderLine ∈
        fixScriptLines (detectIssues pQuiet) aiWithConfigFix ("fid-c8w") ("ts-c8w") ↔
      (detectIssues pQuiet).any (fun i => strContains i.fix ("openclaw.json")) = true) :=
  ⟨by decide,
   claim_C8_restart_gate pQuiet aiWithConfigFix ("fid-c8w") ("ts-c8w") (by decide)⟩

end ClawFix

namespace ClawFix

theorem mapGet_append_single (l : Store) (k : String) (v : AnalysisResult)
    (h : ∀ p ∈ l, p.1 ≠ k) : mapGet (l ++ [(k, v)]) k = some v := by
  unfold mapGet
  rw [List.find?_append]
  have h1 : l.find? (fun p => p.1 == k) = none :=
    List.find?_eq_none.mpr (fun p hp => by simpa using h p hp)
  rw [h1]
  simp [List.find?]

theorem mapGet_storeInsert_self (m : Store) (k : String) (v : AnalysisResult)
    (h : ∀ p ∈ m, p.1 ≠ k) : mapGet (storeInsert m k v) k = some v := by
  have hms : mapSet m k v = m ++ [(k, v)] := mapSet_of_fresh m k v h
  show mapGet (if (mapSet m k v).length > 1000 then (mapSet m k v).drop 1
       else mapSet m k v) k = some v
  rw [hms]
  by_cases hgt : (m ++ [(k, v)]).length > 1000
  · rw [if_pos hgt]
    cases m with
    | nil => simp at hgt
    | cons a t =>
        rw [List.cons_append, List.drop_succ_cons, List.drop_zero]
        exact mapGet_append_single t k v (fun p hp => h p (List.mem_cons_of_mem _ hp))
  · rw [if_neg hgt]
    exact mapGet_append_single m k v h

/-- C9: after a successful diagnose call that stores its Analysis Result
under a fresh fix identifier, retrieving by that identifier answers the
very record that was stored — in particular the script text returned by
the plain-text retrieval is byte-identical to the stored `fixScript`. -/
theorem claim_C9_store_retrieve_roundtrip (catalog : List IssueDef) (store : Store)
    (d : JsonVal) (aiCall : Except String String) (fid ts : String)
    (hb : truthyV d = true) (hs : truthyO (getField d ("system")) = true)
    (hfresh : ∀ p ∈ store, p.1 ≠ fid) :
    ∃ r, (diagnose catalog store (some d) aiCall fid ts).1 = .ok r ∧
      mapGet (diagnose catalog store (some d) aiCall fid ts).2 fid = some r ∧
      getFixRoute (diagnose catalog store (some d) aiCall fid ts).2 fid true =
        .scriptText r.fixScript := by
  have hcond : (truthyV d && truthyO (getField d ("system"))) = true := by
    rw [hb, hs]; rfl
  rw [diagnose_success catalog store d aiCall fid ts hcond]
  refine ⟨diagnoseResult catalog d aiCall fid ts, rfl, ?_, ?_⟩
  · exact mapGet_storeInsert_self store fid _ hfresh
  · unfold getFixRoute
    rw [mapGet_storeInsert_self store fid _ hfresh]
    rfl

theorem claim_C9_witness :
    truthyV pMin = true ∧ truthyO (getField pMin ("system")) = true ∧
    (∀ p ∈ ([] : Store), p.1 ≠ ("fid-c9")) ∧
    ∃ r, (diagnose KNOWN_ISSUES [] (some pMin) (.error ("x")) ("fid-c9") ("ts-c9")).1 =
        .ok r ∧
      getFixRoute (diagnose KNOWN_ISSUES [] (some pMin) (.error ("x")) ("fid-c9")
        ("ts-c9")).2 ("fid-c9") true = .scriptText r.fixScript :=
  ⟨by decide, by decide, by simp,
   match claim_C9_store_retrieve_roundtrip KNOWN_ISSUES [] pMin (.error ("x"))
       ("fid-c9") ("ts-c9") (by decide) (by decide) (by simp) with
   | ⟨r, h1, _, h3⟩ => ⟨r, h1, h3⟩⟩

set_option maxHeartbeats 1000000 in
/-- C10: the `no-memory-files` rule matches exactly when
`workspace.memoryFiles` is strictly the number 0 — in particular it does
not match when `workspace` (or `workspace.memoryFiles`) is absent — and on
the minimal valid payload the other feature-absent rules fire while this
one does not. -/
theorem claim_C10_no_memory_files :
    (∀ p : JsonVal, safeDetect noMemoryFiles p =
      isZeroNum (getPath p [("workspace"), ("memoryFiles")])) ∧
    (∀ p : JsonVal, safeDetect noMemoryFiles p = true ↔
      getPath p [("workspace"), ("memoryFiles")] = some (.num 0)) ∧
    (∀ p : JsonVal, getPath p [("workspace"), ("memoryFiles")] = none →
      safeDetect noMemoryFiles p = false) ∧
    (∀ p : JsonVal, getField p ("workspace") = none →
      safeDetect noMemoryFiles p = false) ∧
    (detectIssues pMin).map (fun r => r.id) =
      [("no-hybrid-search"), ("no-context-pruning"), ("no-memory-flush"), ("no-soul")] ∧
    (∀ r ∈ detectIssues pMin, r.id ≠ ("no-memory-files")) := by
  have hbase : ∀ p : JsonVal, safeDetect noMemoryFiles p =
      isZeroNum (getPath p [("workspace"), ("memoryFiles")]) := fun p => rfl
  have hiff : ∀ p : JsonVal, safeDetect noMemoryFiles p = true ↔
      getPath p [("workspace"), ("memoryFiles")] = some (.num 0) := by
    intro p
    rw [hbase p]
    rcases hv : getPath p [("workspace"), ("memoryFiles")] with _ | v
    · simp [isZeroNum]
    · cases v with
      | num n =>
          simp only [isZeroNum, beq_iff_eq, Option.some.injEq, JsonVal.num.injEq]
      | null => simp [isZeroNum]
      | bool b => simp [isZeroNum]
      | str s => simp [isZeroNum]
      | arr xs => simp [isZeroNum]
      | obj fs => simp [isZeroNum]
  refine ⟨hbase, hiff, ?_, ?_, by decide, by decide⟩
  · intro p hp
    rw [hbase p, hp]
    rfl
  · intro p hp
    rw [hbase p]
    have : getPath p [("workspace"), ("memoryFiles")] = none := by
      unfold getPath digOpt
      simp [hp]
    rw [this]
    rfl

theorem claim_C10_witness :
    getField (JsonVal.obj [(("system"), JsonVal.str ("x"))]) ("workspace") = none ∧
    safeDetect noMemoryFiles (JsonVal.obj [(("system"), JsonVal.str ("x"))]) = false ∧
    (safeDetect noMemoryFiles
        (JsonVal.obj [(("workspace"), JsonVal.obj [(("memoryFiles"), JsonVal.num 0)])]) = true ↔
      getPath (JsonVal.obj [(("workspace"), JsonVal.obj [(("memoryFiles"), JsonVal.num 0)])])
        [("workspace"), ("memoryFiles")] = some (.num 0)) :=
  ⟨by rfl,
   claim_C10_no_memory_files.2.2.2.1 _ (by rfl),
   claim_C10_no_memory_files.2.1 _⟩

end ClawFix
